import Mathlib

/-!
A shallow embedding of the JLS v2 reader adapter
(`joulescope_ui/jls_v2.py`): the signal-name translation tables, the
per-signal time-map calibration performed by `JlsV2.open`, and the
buffer-request handling of `JlsV2.process` / `JlsV2.close`.

Python integers are modelled as `Int` (Python `//` is `Int.fdiv`, floor
division).  Python float arithmetic on calibration rates is modelled
exactly over `ℚ`.  Python exceptions (`TypeError` from arithmetic on
`None`, `KeyError` from a failing dict lookup) are modelled with
`Except PyErr`.  `None`-able request fields are `Option`s.
-/

namespace JlsV2Model

/-- Constant `time64.SECOND`.  Modelled from the spec: the `time64` module is not in
`src/`; the spec calls it the "fixed time unit" (time64 is a fixed-point
count of seconds with `2 ^ 30` units per second). -/
def SECOND : Int := 1073741824

/-- Python `TypeError` / `KeyError` / `ZeroDivisionError` : the exceptions
the adapter can hit inside `process` and the `open` signal loop. -/
inductive PyErr where
  | typeError
  | keyError
  | zeroDivisionError
  deriving DecidableEq, Repr

/-- Python dict assignment `m[k] = v` on an insertion-ordered dict:
replace the value in place when the key exists, append otherwise. -/
def dictSet {κ β : Type} [BEq κ] (m : List (κ × β)) (k : κ) (v : β) : List (κ × β) :=
  if m.any (fun kv => kv.1 == k) then
    m.map (fun kv => if kv.1 == k then (k, v) else kv)
  else
    m ++ [(k, v)]

/-- Structure `TimeMap`.  Modelled from the spec: `joulescope_ui/time_map.py` is not in
`src/`.  Spec §3: the calibration triple `time_offset` (time64 value),
`counter_offset` (sample index), `counter_rate` (samples per time unit),
created with identity-like defaults. -/
structure TimeMap where
  time_offset : Int
  counter_offset : Int
  counter_rate : ℚ
  deriving DecidableEq, Repr

/-- Modelled from the spec: a `TimeMap` is "created empty (identity-like
defaults)". -/
def TimeMap.init : TimeMap :=
  { time_offset := 0, counter_offset := 0, counter_rate := 1 }

/-- Modelled from the spec §3/§4.1: `update` "atomically replaces all three
fields".  The argument order matches the adapter call sites: the spec
calibration steps 2–4 set the offsets from the first correspondence entry,
whose layout is `(counter, time)` (the source computes `d_sample` from
column 0 and `d_utc` from column 1), and the rate from the two-point slope;
hence the first argument is the counter offset, the second the time offset,
and the third the rate. -/
def TimeMap.update (_tm : TimeMap) (counter_offset : Int) (time_offset : Int)
    (counter_rate : ℚ) : TimeMap :=
  { time_offset := time_offset, counter_offset := counter_offset,
    counter_rate := counter_rate }

/-- Modelled from the spec §4.1:
`time_to_counter(t) = counter_offset + round((t - time_offset) * rate)`. -/
def TimeMap.time64_to_counter (tm : TimeMap) (t : Int) : Int :=
  tm.counter_offset + round (((t - tm.time_offset : Int) : ℚ) * tm.counter_rate)

/-- Modelled from the spec §4.1:
`counter_to_time(c) = time_offset + round((c - counter_offset) / rate)`. -/
def TimeMap.counter_to_time64 (tm : TimeMap) (c : Int) : Int :=
  tm.time_offset + round (((c - tm.counter_offset : Int) : ℚ) / tm.counter_rate)

/-- Table `TO_JLS_SIGNAL_NAME` exactly as written in the source, before `_init()`
extends it. -/
def TO_JLS_SIGNAL_NAME_init : List (String × String) :=
  [("i", "current"),
   ("v", "voltage"),
   ("p", "power"),
   ("r", "current_range"),
   ("0", "gpi[0]"),
   ("1", "gpi[1]"),
   ("2", "gpi[2]"),
   ("3", "gpi[3]"),
   ("T", "trigger_in")]

/-- Table `TO_JLS_SIGNAL_NAME` after `_init()`: for each initial `(key, value)`
pair, `TO_JLS_SIGNAL_NAME[value] = value`. -/
def TO_JLS_SIGNAL_NAME : List (String × String) :=
  TO_JLS_SIGNAL_NAME_init.foldl (fun m kv => dictSet m kv.2 kv.2)
    TO_JLS_SIGNAL_NAME_init

/-- Table `TO_UI_SIGNAL_NAME` as built by `_init()`: for each initial
`(key, value)` pair, `TO_UI_SIGNAL_NAME[value] = key` and
`TO_UI_SIGNAL_NAME[key] = key`. -/
def TO_UI_SIGNAL_NAME : List (String × String) :=
  TO_JLS_SIGNAL_NAME_init.foldl
    (fun m kv => dictSet (dictSet m kv.2 kv.1) kv.1 kv.1) []

/-- A source record as enumerated by the external decoder (`jls.sources`). -/
structure JlsSource where
  name : String
  vendor : String
  model : String
  version : String
  serial_number : String
  deriving DecidableEq, Repr

/-- Enumeration `pyjls.SignalType`: fixed sample rate or not. -/
inductive SignalType where
  | FSR
  | VSR
  deriving DecidableEq, Repr

/-- A signal record as enumerated by the external decoder (`jls.signals`).
`utc_entries` is the ordered list of `(sample counter, time64)` UTC
correspondence entries that `jls.utc` would feed to the scan callback. -/
structure JlsSignal where
  signal_id : Nat
  source_id : Nat
  name : String
  signal_type : SignalType
  sample_rate : Int
  units : String
  data_type : String
  length : Int
  utc_entries : List (Int × Int)
  deriving DecidableEq, Repr

/-- The per-signal record stored in `self._signals[signal_name]`
(source lines 127–135). -/
structure SignalRecord where
  signal_id : Nat
  sample_rate : Int
  field : String
  units : String
  data_type : String
  length : Int
  time_map : TimeMap
  deriving DecidableEq, Repr

/-- Lines 99–107 of `JlsV2.open`: derive the `TimeMap` of a fixed-sample-rate
signal.  The UTC scan (lines 88–98) keeps the first entry of the first batch
and the last entry of the last batch and always returns `False`, so with the
batches flattened into one list, `utc_first` is the head and `utc_last` the
last element.  `g = time64.SECOND / signal.sample_rate` is the sample
period in time64 units (float division, modelled exactly over `ℚ`). -/
def deriveCalibration (sample_rate : Int) (entries : List (Int × Int)) : TimeMap :=
  let time_map := TimeMap.init
  let g : ℚ := (SECOND : ℚ) / (sample_rate : ℚ)
  match entries with
  | [] => time_map.update 0 0 (1 / g)
  | f :: rest =>
    let utc_first := f
    let utc_last := (f :: rest).getLast (List.cons_ne_nil f rest)
    if utc_last.1 = utc_first.1 then
      time_map.update utc_first.1 utc_first.2 g
    else
      let d_utc := utc_last.2 - utc_first.2
      let d_sample := utc_last.1 - utc_first.1
      time_map.update utc_first.1 utc_first.2 ((d_sample : ℚ) / (d_utc : ℚ))

/-- The source loop of `JlsV2.open` (lines 70–82): register the two
per-source topics and collect `source_meta[source_id]`.  Only the
`name` entry of the meta dict (model, a dash, then serial_number) is read
downstream, so `source_meta` maps the source id to that string; topics are
tracked by path. -/
def openSources (topic : String) (sources : List (Nat × JlsSource)) :
    List String × List (Nat × String) :=
  sources.foldl
    (fun acc s =>
      (acc.1 ++ [topic ++ "/settings/sources/" ++ toString s.1 ++ "/name",
                 topic ++ "/settings/sources/" ++ toString s.1 ++ "/meta"],
       dictSet acc.2 s.1 (s.2.model ++ "-" ++ s.2.serial_number)))
    ([], [])

/-- The signal loop of `JlsV2.open` (lines 83–135), threading the topic log
and the `self._signals` dict.  A signal whose name is not a
`TO_UI_SIGNAL_NAME` key is skipped (`continue`, line 86) before anything is
registered; the membership test of line 85 and the value lookup of line 111
are merged into one `lookup`.  `source_meta[signal.source_id]` (line 109)
raises `KeyError` when the source id is unknown. -/
def openSignals (topic : String) (source_meta : List (Nat × String)) :
    List (Nat × JlsSignal) → List String × List (String × SignalRecord) →
    Except PyErr (List String × List (String × SignalRecord))
  | [], acc => .ok acc
  | (_, signal) :: rest, acc =>
    match TO_UI_SIGNAL_NAME.lookup signal.name with
    | none => openSignals topic source_meta rest acc
    | some signal_subname =>
      let time_map :=
        if signal.signal_type = SignalType.FSR then
          deriveCalibration signal.sample_rate signal.utc_entries
        else TimeMap.init
      match source_meta.lookup signal.source_id with
      | none => .error .keyError
      | some source_name =>
        let signal_name := source_name ++ "." ++ signal_subname
        let topics := acc.1 ++
          [topic ++ "/settings/signals/" ++ signal_name ++ "/name",
           topic ++ "/settings/signals/" ++ signal_name ++ "/meta",
           topic ++ "/settings/signals/" ++ signal_name ++ "/range"]
        let record : SignalRecord :=
          { signal_id := signal.signal_id, sample_rate := signal.sample_rate,
            field := signal_subname, units := signal.units,
            data_type := signal.data_type, length := signal.length,
            time_map := time_map }
        openSignals topic source_meta rest (topics, dictSet acc.2 signal_name record)

/-- Function `JlsV2.open` (lines 63–135), restricted to its observable outcome: the
ordered list of registered topic paths and the `self._signals` dict. -/
def openJls (topic : String) (sources : List (Nat × JlsSource))
    (signals : List (Nat × JlsSignal)) :
    Except PyErr (List String × List (String × SignalRecord)) :=
  let src := openSources topic sources
  openSignals topic src.2 signals (src.1, [])

/-- The external decoder handle (`pyjls.Reader`): enumerations plus the two
fetch entry points used by `process`.  Sample values are opaque to the
adapter and carried as `ℚ`. -/
structure Reader where
  sources : List (Nat × JlsSource)
  signals : List (Nat × JlsSignal)
  fsr : Nat → Int → Int → List ℚ
  fsr_statistics : Nat → Int → Int → Int → List (List ℚ)

/-- The adapter state: `self._path`, `self._jls`, `self._signals`. -/
structure JlsV2 where
  path : String
  jls : Option Reader
  signals : List (String × SignalRecord)

/-- A buffer request (the dict read by `process`).  `start` is always a
sample counter or time64 value; `end` and `length` may be `None`. -/
structure BufferReq where
  signal_id : String
  time_type : String
  start : Int
  «end» : Option Int
  length : Option Int
  rsp_id : Option Int
  deriving DecidableEq, Repr

/-- One of the `time_range_utc` / `time_range_samples` blocks. -/
structure TimeRange where
  start : Int
  «end» : Int
  length : Int
  deriving DecidableEq, Repr

/-- The `time_map` echo block of the response info. -/
structure TimeMapEcho where
  offset_time : Int
  offset_counter : Int
  counter_rate : Int
  deriving DecidableEq, Repr

/-- The `info` block of a buffer response (lines 183–202). -/
structure RspInfo where
  version : Int
  field : String
  units : String
  time_range_utc : TimeRange
  time_range_samples : TimeRange
  time_map : TimeMapEcho
  deriving DecidableEq, Repr

/-- The payload: raw samples from `fsr`, or per-window aggregate records
from `fsr_statistics`. -/
inductive Data where
  | samples : List ℚ → Data
  | summary : List (List ℚ) → Data
  deriving DecidableEq, Repr

/-- A buffer response (lines 204–211). -/
structure BufferRsp where
  version : Int
  rsp_id : Option Int
  info : RspInfo
  response_type : String
  data : Data
  data_type : String
  deriving DecidableEq, Repr

/-- Lines 147–153 of `process`: resolve the request bounds to sample
counters.  In `utc` mode, `time64_to_counter` applied to the `end` field raises
`TypeError` when `end` is `None` (arithmetic on `None`). -/
def resolveBounds (signal : SignalRecord) (req : BufferReq) :
    Except PyErr (Int × Option Int) :=
  if req.time_type = "utc" then
    let time_map := signal.time_map
    let start := time_map.time64_to_counter req.start
    match req.«end» with
    | none => .error .typeError
    | some e => .ok (start, some (time_map.time64_to_counter e))
  else
    .ok (req.start, req.«end»)

/-- Lines 180–211 of `process`: compute `sample_id_end` and assemble the
response envelope. -/
def mkRsp (signal : SignalRecord) (rsp_id : Option Int)
    (start increment length : Int)
    (response_type data_type : String) (data : Data) : BufferRsp :=
  let sample_id_end := start + increment * length - 1
  let time_map := signal.time_map
  { version := 1, rsp_id := rsp_id,
    info :=
      { version := 1, field := signal.field, units := signal.units,
        time_range_utc :=
          { start := time_map.counter_to_time64 start,
            «end» := time_map.counter_to_time64 sample_id_end,
            length := length },
        time_range_samples :=
          { start := start, «end» := sample_id_end, length := length },
        time_map :=
          { offset_time := time_map.time_offset,
            offset_counter := time_map.counter_offset,
            counter_rate := signal.sample_rate } },
    response_type := response_type, data := data, data_type := data_type }

/-- Method `JlsV2.process` (lines 137–211), returning the result together with the
final adapter state (the method assigns no attribute of `self`).

Two `TypeError` paths mirror the source exactly:
* `interval = end - start + 1` (line 154) runs before the `end is None`
  branch of line 162, so a request with `end` absent raises `TypeError`
  (`None` minus `int`) and line 162 is unreachable;
* the `length is None` branch (lines 165–167) never reassigns `length`, so
  line 180 (`increment * length`) raises `TypeError` (`int` times `None`)
  after the fetch.

The line-168 guard `length and end and length <= (interval // 2)` uses
Python truthiness: it requires `length != 0` and `end != 0`.

One `ZeroDivisionError` path also mirrors the source: inside the summary
branch, line 170 computes `increment = interval // length` (the guard
guarantees `length != 0`), and line 171 `length = interval // increment`
raises `ZeroDivisionError` when `increment == 0` — reachable exactly when
`interval = 0` and a negative `length` passes the guard
(`0 // length == 0`). -/
def process (self : JlsV2) (req : BufferReq) :
    Except PyErr (Option BufferRsp) × JlsV2 :=
  match self.jls with
  | none => (.ok none, self)
  | some jls =>
    match self.signals.lookup req.signal_id with
    | none => (.error .keyError, self)
    | some signal =>
      let signal_id := signal.signal_id
      match resolveBounds signal req with
      | .error e => (.error e, self)
      | .ok (start, «end») =>
        match «end» with
        | none => (.error .typeError, self)
        | some «end» =>
          let interval := «end» - start + 1
          let data_type := signal.data_type
          if interval < 0 then (.ok none, self)
          else
            match req.length with
            | none => (.error .typeError, self)
            | some length =>
              if length ≠ 0 ∧ «end» ≠ 0 ∧ length ≤ interval.fdiv 2 then
                let increment := interval.fdiv length
                if increment = 0 then (.error .zeroDivisionError, self)
                else
                  let length := interval.fdiv increment
                  let data := Data.summary
                    (jls.fsr_statistics signal_id start increment length)
                  (.ok (some (mkRsp signal req.rsp_id start increment length
                    "summary" "f32" data)), self)
              else
                let length := interval
                let data := Data.samples (jls.fsr signal_id start length)
                (.ok (some (mkRsp signal req.rsp_id start 1 length
                  "samples" data_type data)), self)

/-- Method `JlsV2.close` (lines 213–216): swap the handle out and drop it. -/
def close (self : JlsV2) : JlsV2 :=
  { self with jls := none }

/-- Project the response (if any) out of a `process` result. -/
def getRsp (x : Except PyErr (Option BufferRsp) × JlsV2) : Option BufferRsp :=
  match x.1 with
  | .ok r => r
  | .error _ => none

/-- Project the response type (if a response was produced). -/
def rspType (x : Except PyErr (Option BufferRsp) × JlsV2) : Option String :=
  (getRsp x).map BufferRsp.response_type

/-! Concrete fixtures used by the witnesses and counterexamples. -/

/-- A fixed-rate current signal record with the identity time map. -/
def sigrec0 : SignalRecord :=
  { signal_id := 0, sample_rate := 1000, field := "current", units := "A",
    data_type := "f32", length := 10000, time_map := TimeMap.init }

/-- A decoder handle whose fetches return zero-filled payloads of the
requested count. -/
def reader0 : Reader :=
  { sources := [], signals := [],
    fsr := fun _ _ n => List.replicate n.toNat 0,
    fsr_statistics := fun _ _ _ n => List.replicate n.toNat [0, 0, 0, 0] }

/-- An adapter with one open file and one signal. -/
def state0 : JlsV2 :=
  { path := "test.jls", jls := some reader0,
    signals := [("X1-001.current", sigrec0)] }

/-- An adapter with no file open. -/
def stateClosed : JlsV2 :=
  { path := "test.jls", jls := none, signals := [] }

/-- A sample-domain request against `state0`. -/
def mkReq (s : Int) (e : Option Int) (l : Option Int) : BufferReq :=
  { signal_id := "X1-001.current", time_type := "samples", start := s,
    «end» := e, length := l, rsp_id := none }

/-- Fixture: a source enumeration entry. -/
def src1 : JlsSource :=
  { name := "s", vendor := "v", model := "X1", version := "1.0",
    serial_number := "001" }

/-- Fixture: a supported signal (on-disk name `current`). -/
def goodSig : JlsSignal :=
  { signal_id := 0, source_id := 1, name := "current",
    signal_type := SignalType.FSR, sample_rate := 1000, units := "A",
    data_type := "f32", length := 10000, utc_entries := [] }

/-- Fixture: a signal whose on-disk name is outside the fixed field-name
enumeration. -/
def badSig : JlsSignal :=
  { goodSig with signal_id := 1, name := "temperature", units := "C" }

/-- Arithmetic fact behind the summary branch: for a positive interval `i`,
a nonzero `l` with `l ≤ i // 2` yields a nonzero increment `i // l`
(floor division), so line 171 cannot divide by zero when `i ≥ 1`. -/
theorem fdiv_ne_zero_of_le_half {i l : Int} (hi : 1 ≤ i) (hl : l ≠ 0)
    (hhalf : l ≤ i.fdiv 2) : i.fdiv l ≠ 0 := by
  rcases hl.lt_or_lt with hneg | hpos
  · rcases i with m | m
    · rcases l with n | n
      · exact ((Int.ofNat_nonneg n).not_lt hneg).elim
      · rcases m with _ | m
        · exact absurd hi (by decide)
        · show Int.negSucc (m / (n + 1)) ≠ 0
          exact (Int.negSucc_lt_zero _).ne
    · exact absurd hi (lt_trans (Int.negSucc_lt_zero m) one_pos).not_le
  · have h2 : l * 2 ≤ i := by
      rw [← Int.le_ediv_iff_mul_le (by norm_num : (0 : Int) < 2)]
      rwa [Int.fdiv_eq_ediv _ (by norm_num : (0 : Int) ≤ 2)] at hhalf
    have h1 : 1 ≤ i.fdiv l := by
      rw [Int.fdiv_eq_ediv _ (by omega : (0 : Int) ≤ l),
        Int.le_ediv_iff_mul_le hpos]
      omega
    omega

/-- Shared derivation for the statistical-summary branch of `process`: under
the line-168 guard (`length` nonzero, resolved `end` nonzero, `length` at
most `interval // 2`) and a positive interval (which makes the line-171
divisor `increment = interval // length` nonzero), the call returns the
summary response built from `increment = interval // length` and the
recomputed `length = interval // increment`. -/
theorem process_summary (st : JlsV2) (jls : Reader) (req : BufferReq)
    (sr : SignalRecord) (s e l : Int)
    (hjls : st.jls = some jls)
    (hsig : st.signals.lookup req.signal_id = some sr)
    (htt : req.time_type ≠ "utc")
    (hstart : req.start = s)
    (hend : req.«end» = some e)
    (hlen : req.length = some l)
    (he : e ≠ 0)
    (hl0 : l ≠ 0)
    (hpos : 1 ≤ e - s + 1)
    (hhalf : l ≤ (e - s + 1).fdiv 2) :
    (process st req).1 = .ok (some (mkRsp sr req.rsp_id s ((e - s + 1).fdiv l)
      ((e - s + 1).fdiv ((e - s + 1).fdiv l)) "summary" "f32"
      (Data.summary (jls.fsr_statistics sr.signal_id s ((e - s + 1).fdiv l)
        ((e - s + 1).fdiv ((e - s + 1).fdiv l)))))) := by
  have hres : resolveBounds sr req = .ok (s, some e) := by
    simp [resolveBounds, htt, hstart, hend]
  have hnotlt : ¬ (e - s + 1 < 0) := by omega
  have hcond : l ≠ 0 ∧ e ≠ 0 ∧ l ≤ (e - s + 1).fdiv 2 := ⟨hl0, he, hhalf⟩
  have hinc : (e - s + 1).fdiv l ≠ 0 := fdiv_ne_zero_of_le_half hpos hl0 hhalf
  simp only [process, hjls, hsig, hres, hlen]
  rw [if_neg hnotlt, if_pos hcond, if_neg hinc]

/-- C2 counterexample: with `interval = 1000` and requested `length = 500`
(start 0, end 999, sample domain), the code selects the statistical-summary
fetch, not the raw-sample fetch the claim asserts: the line-168 threshold
`length <= interval // 2` is inclusive and `500 <= 500` holds. -/
theorem c2_counterexample :
    rspType (process state0 (mkReq 0 (some 999) (some 500))) = some "summary" ∧
    some "summary" ≠ some "samples" := by
  constructor
  · rfl
  · decide

/-- C2 amended: at `interval = 1000` the summary path is taken for
`length = 500` (exactly half is inside the inclusive threshold: window
increment `2`, output length `500`, element type forced to `f32`), and the
raw-sample path is taken for `length = 501`. -/
theorem c2_boundary :
    getRsp (process state0 (mkReq 0 (some 999) (some 500))) =
      some (mkRsp sigrec0 none 0 2 500 "summary" "f32"
        (Data.summary (reader0.fsr_statistics 0 0 2 500))) ∧
    rspType (process state0 (mkReq 0 (some 999) (some 501))) = some "samples" := by
  constructor
  · rfl
  · rfl

/-- C3 (code bug): at the single-point calibration input (one UTC entry with
counter `0` and time `1000000`, sample rate `1000`) the code sets the
offsets from the first entry but passes `g = SECOND / sample_rate` (the
sample period, time64 units per sample) as the rate, where the claim, the
empty-entries branch (`1.0 / g`) and the two-point branch
(`d_sample / d_utc`) all use samples per time64 unit; `g ≠ 1 / g` at this
input. -/
theorem c3_degenerate_rate :
    deriveCalibration 1000 [(0, 1000000)] =
      { time_offset := 1000000, counter_offset := 0,
        counter_rate := (SECOND : ℚ) / ((1000 : Int) : ℚ) } ∧
    (SECOND : ℚ) / ((1000 : Int) : ℚ) ≠ 1000 / (SECOND : ℚ) ∧
    (deriveCalibration 1000 []).counter_rate = 1000 / (SECOND : ℚ) := by
  refine ⟨rfl, ?_, ?_⟩
  · rw [SECOND]
    norm_num
  · have h : (deriveCalibration 1000 []).counter_rate =
        1 / ((SECOND : ℚ) / ((1000 : Int) : ℚ)) := rfl
    rw [h, one_div_div, SECOND]
    norm_num

/-- C4 (code bug): a sample-domain request with `end` absent and
`length = 10` raises `TypeError`: line 154 computes
`interval = end - start + 1` on `None` before the `end is None` branch of
line 162 can run, so no samples are fetched and no response is returned. -/
theorem c4_end_none_typeerror :
    (process state0 (mkReq 0 none (some 10))).1 = .error .typeError := by
  rfl

/-- C5 (code bug): a request with `end = 9` present and `length` absent
fetches `interval` raw samples but then raises `TypeError` at line 180:
`increment * length` is evaluated with `length` still `None`, because the
branch at lines 165–167 never reassigns `length`.  No response carrying the
reported lengths is produced. -/
theorem c5_length_none_typeerror :
    (process state0 (mkReq 0 (some 9) none)).1 = .error .typeError := by
  rfl

/-- C6: when the resolved bounds give `interval = end - start + 1 < 0`,
`process` returns no response and does not raise, and the result does not
depend on the decoder fetch functions (no fetch can influence it). -/
theorem c6_negative_interval_noop (st : JlsV2) (jls : Reader) (req : BufferReq)
    (sr : SignalRecord) (s e : Int)
    (hjls : st.jls = some jls)
    (hsig : st.signals.lookup req.signal_id = some sr)
    (hres : resolveBounds sr req = .ok (s, some e))
    (hneg : e - s + 1 < 0) :
    (process st req).1 = .ok none ∧
    ∀ (f : Nat → Int → Int → List ℚ) (g : Nat → Int → Int → Int → List (List ℚ)),
      (process { st with jls := some { jls with fsr := f, fsr_statistics := g } } req).1 =
        .ok none := by
  constructor
  · simp [process, hjls, hsig, hres, hneg]
  · intro f g
    simp [process, hsig, hres, hneg]

/-- C6 witness: the spec example `start = 100`, `end = 50` in the sample
domain yields no response. -/
theorem c6_negative_interval_noop_witness :
    (process state0 (mkReq 100 (some 50) (some 10))).1 = .ok none :=
  (c6_negative_interval_noop state0 reader0 (mkReq 100 (some 50) (some 10))
    sigrec0 100 50 rfl rfl rfl (by decide)).1

/-- C7: with no file open, `process` returns `None` rather than raising;
`close` clears the decoder handle, is idempotent (a no-op when nothing is
open, safe to call repeatedly), and `process` after `close` again returns
`None`. -/
theorem c7_no_file_open (st st2 : JlsV2) (req req2 : BufferReq)
    (h : st.jls = none) :
    (process st req).1 = .ok none ∧
    (close st2).jls = none ∧
    close (close st2) = close st2 ∧
    (process (close st2) req2).1 = .ok none := by
  refine ⟨?_, rfl, rfl, rfl⟩
  simp [process, h]

/-- C7 witness at a closed adapter state and at `close` of an open one. -/
theorem c7_no_file_open_witness :
    (process stateClosed (mkReq 0 (some 9) (some 2))).1 = .ok none ∧
    (close state0).jls = none ∧
    close (close state0) = close state0 ∧
    (process (close state0) (mkReq 0 (some 9) (some 2))).1 = .ok none :=
  c7_no_file_open stateClosed state0 (mkReq 0 (some 9) (some 2))
    (mkReq 0 (some 9) (some 2)) rfl

/-- C10: `process` never mutates the adapter state: the path, the decoder
handle and the signal-name-to-record map (with every time map) are returned
unchanged on every path, whether the call produces a response, nothing, or
an error. -/
theorem c10_process_preserves_state (st : JlsV2) (req : BufferReq) :
    (process st req).2 = st := by
  unfold process
  repeat' split
  all_goals dsimp only
  all_goals repeat' split
  all_goals rfl

/-- C1 counterexample: the request start `-3`, end `0`, length `2` in the
sample domain satisfies every premise of the claim (end present, length
present and nonzero, `interval = 4`, `2 ≤ 4 // 2`), yet the code returns a
raw-sample response, not a summary: the line-168 guard
`length and end and ...` uses Python truthiness, and `end == 0` is falsy. -/
theorem c1_counterexample :
    (2 : Int) ≠ 0 ∧ (2 : Int) ≤ ((0 : Int) - (-3) + 1).fdiv 2 ∧
    rspType (process state0 (mkReq (-3) (some 0) (some 2))) = some "samples" ∧
    some "samples" ≠ some "summary" := by
  refine ⟨by decide, by decide, rfl, by decide⟩

/-- C1 amended: for every buffer request processed while a file is open,
with start and end resolved to sample counters, end present **and nonzero**,
length present and nonzero, a **positive interval**, and
`length ≤ interval // 2`, `process` performs a statistical-summary fetch
with window increment `interval // length`, recomputed output length
`interval // increment`, response type `summary`, and payload element type
forced to `f32`.  (A zero interval is excluded: there the guard can only
pass with a negative length, `increment = 0 // length = 0`, and line 171
raises `ZeroDivisionError`; a negative interval is discarded by the
line-160 guard.) -/
theorem c1_summary_strategy (st : JlsV2) (jls : Reader) (req : BufferReq)
    (sr : SignalRecord) (s e l : Int)
    (hjls : st.jls = some jls)
    (hsig : st.signals.lookup req.signal_id = some sr)
    (htt : req.time_type ≠ "utc")
    (hstart : req.start = s)
    (hend : req.«end» = some e)
    (hlen : req.length = some l)
    (he : e ≠ 0)
    (hl0 : l ≠ 0)
    (hpos : 1 ≤ e - s + 1)
    (hhalf : l ≤ (e - s + 1).fdiv 2) :
    (process st req).1 = .ok (some (mkRsp sr req.rsp_id s ((e - s + 1).fdiv l)
      ((e - s + 1).fdiv ((e - s + 1).fdiv l)) "summary" "f32"
      (Data.summary (jls.fsr_statistics sr.signal_id s ((e - s + 1).fdiv l)
        ((e - s + 1).fdiv ((e - s + 1).fdiv l)))))) :=
  process_summary st jls req sr s e l hjls hsig htt hstart hend hlen he hl0
    hpos hhalf

/-- C1 witness: start `0`, end `9`, length `2` (interval `10`): summary
fetch with increment `5` and recomputed length `2`. -/
theorem c1_summary_strategy_witness :
    (process state0 (mkReq 0 (some 9) (some 2))).1 =
      .ok (some (mkRsp sigrec0 (mkReq 0 (some 9) (some 2)).rsp_id 0
        (((9 : Int) - 0 + 1).fdiv 2)
        (((9 : Int) - 0 + 1).fdiv (((9 : Int) - 0 + 1).fdiv 2))
        "summary" "f32"
        (Data.summary (reader0.fsr_statistics sigrec0.signal_id 0
          (((9 : Int) - 0 + 1).fdiv 2)
          (((9 : Int) - 0 + 1).fdiv (((9 : Int) - 0 + 1).fdiv 2)))))) :=
  c1_summary_strategy state0 reader0 (mkReq 0 (some 9) (some 2)) sigrec0 0 9 2
    rfl rfl (by decide) rfl rfl rfl (by decide) (by decide) (by decide)
    (by decide)

/-- Sanity check of the division-by-zero path at line 171: start `5`,
end `4`, length `-1` give `interval = 0`; the line-168 guard passes
(`-1` truthy, `4` truthy, `-1 ≤ 0 // 2 = 0`), `increment = 0 // -1 = 0`,
and `interval // increment` raises `ZeroDivisionError`. -/
theorem process_zero_interval_zerodivision :
    (process state0 (mkReq 5 (some 4) (some (-1)))).1 =
      .error .zeroDivisionError := by
  rfl

/-- C9: whenever the statistical-summary path is taken (end nonzero, length
at least one and at most `interval // 2`, interval at least `2`), the
recomputed output length `interval // (interval // length)` is at least the
requested length, and the reported sample range never extends past the
requested end. -/
theorem c9_summary_bounds (st : JlsV2) (jls : Reader) (req : BufferReq)
    (sr : SignalRecord) (s e l : Int)
    (hjls : st.jls = some jls)
    (hsig : st.signals.lookup req.signal_id = some sr)
    (htt : req.time_type ≠ "utc")
    (hstart : req.start = s)
    (hend : req.«end» = some e)
    (hlen : req.length = some l)
    (he : e ≠ 0)
    (hl : 1 ≤ l)
    (hi2 : 2 ≤ e - s + 1)
    (hhalf : l ≤ (e - s + 1).fdiv 2) :
    ∃ r, getRsp (process st req) = some r ∧
      l ≤ r.info.time_range_samples.length ∧
      r.info.time_range_samples.«end» ≤ e := by
  have h := process_summary st jls req sr s e l hjls hsig htt hstart hend hlen
    he (by omega) (by omega) hhalf
  refine ⟨mkRsp sr req.rsp_id s ((e - s + 1).fdiv l)
      ((e - s + 1).fdiv ((e - s + 1).fdiv l)) "summary" "f32"
      (Data.summary (jls.fsr_statistics sr.signal_id s ((e - s + 1).fdiv l)
        ((e - s + 1).fdiv ((e - s + 1).fdiv l)))), ?_, ?_, ?_⟩
  · simp only [getRsp, h]
  all_goals dsimp only [mkRsp]
  · -- l ≤ interval // (interval // l)
    rw [Int.fdiv_eq_ediv _ (by omega : (0 : Int) ≤ l),
      Int.fdiv_eq_ediv _ (Int.ediv_nonneg (by omega) (by omega))]
    have h1 : l * ((e - s + 1) / l) ≤ e - s + 1 := by
      rw [mul_comm]
      exact Int.ediv_mul_le _ (by omega)
    have hinc1 : 1 ≤ (e - s + 1) / l := by
      rw [Int.le_ediv_iff_mul_le (by omega : (0 : Int) < l)]
      have h2l : l * 2 ≤ e - s + 1 := by
        rw [← Int.le_ediv_iff_mul_le (by norm_num : (0 : Int) < 2)]
        rwa [Int.fdiv_eq_ediv _ (by norm_num : (0 : Int) ≤ 2)] at hhalf
      omega
    rw [Int.le_ediv_iff_mul_le (by omega : (0 : Int) < (e - s + 1) / l)]
    exact h1
  · -- s + increment * recomputed_length - 1 ≤ e
    rw [Int.fdiv_eq_ediv _ (by omega : (0 : Int) ≤ l),
      Int.fdiv_eq_ediv _ (Int.ediv_nonneg (by omega) (by omega))]
    have hinc1 : 1 ≤ (e - s + 1) / l := by
      rw [Int.le_ediv_iff_mul_le (by omega : (0 : Int) < l)]
      have h2l : l * 2 ≤ e - s + 1 := by
        rw [← Int.le_ediv_iff_mul_le (by norm_num : (0 : Int) < 2)]
        rwa [Int.fdiv_eq_ediv _ (by norm_num : (0 : Int) ≤ 2)] at hhalf
      omega
    have h3 : ((e - s + 1) / l) * ((e - s + 1) / ((e - s + 1) / l)) ≤
        e - s + 1 := by
      rw [mul_comm]
      exact Int.ediv_mul_le _ (by omega)
    linarith [h3]

/-- C9 witness: start `0`, end `999`, length `300`: increment `3`, recomputed
length `333 ≥ 300`, reported sample end `998 ≤ 999`. -/
theorem c9_summary_bounds_witness :
    ∃ r, getRsp (process state0 (mkReq 0 (some 999) (some 300))) = some r ∧
      (300 : Int) ≤ r.info.time_range_samples.length ∧
      r.info.time_range_samples.«end» ≤ 999 :=
  c9_summary_bounds state0 reader0 (mkReq 0 (some 999) (some 300)) sigrec0
    0 999 300 rfl rfl (by decide) rfl rfl rfl (by decide) (by decide)
    (by decide) (by decide)

/-- Helper for C8: the signal loop ignores an entry whose on-disk name is
not a `TO_UI_SIGNAL_NAME` key, wherever it sits in the enumeration. -/
theorem openSignals_skip_unsupported (topic : String)
    (sm : List (Nat × String)) (sid : Nat) (bad : JlsSignal)
    (l₂ : List (Nat × JlsSignal))
    (h : TO_UI_SIGNAL_NAME.lookup bad.name = none) :
    ∀ (l₁ : List (Nat × JlsSignal))
      (acc : List String × List (String × SignalRecord)),
      openSignals topic sm (l₁ ++ (sid, bad) :: l₂) acc =
        openSignals topic sm (l₁ ++ l₂) acc := by
  intro l₁
  induction l₁ with
  | nil =>
    intro acc
    simp only [List.nil_append, openSignals, h]
  | cons hd tl ih =>
    intro acc
    obtain ⟨k, sig⟩ := hd
    simp only [List.cons_append, openSignals]
    cases hx : TO_UI_SIGNAL_NAME.lookup sig.name with
    | none => exact ih acc
    | some sub =>
      cases hy : sm.lookup sig.source_id with
      | none => rfl
      | some nm => exact ih _

/-- C8: a signal whose on-disk name is outside the fixed field-name
enumeration contributes nothing to `open`: the registered topics and the
signal-name-to-record map are identical with and without it, so it is
invisible to every later name-based lookup by `process`. -/
theorem c8_unsupported_signal_excluded (topic : String)
    (sources : List (Nat × JlsSource)) (l₁ l₂ : List (Nat × JlsSignal))
    (sid : Nat) (bad : JlsSignal)
    (h : TO_UI_SIGNAL_NAME.lookup bad.name = none) :
    openJls topic sources (l₁ ++ (sid, bad) :: l₂) =
      openJls topic sources (l₁ ++ l₂) := by
  simp only [openJls]
  exact openSignals_skip_unsupported topic _ sid bad l₂ h l₁ _

/-- C8 witness: a `temperature` signal is excluded from the open results. -/
theorem c8_unsupported_signal_excluded_witness :
    openJls "t" [(1, src1)] [(0, goodSig), (1, badSig)] =
      openJls "t" [(1, src1)] [(0, goodSig)] :=
  c8_unsupported_signal_excluded "t" [(1, src1)] [(0, goodSig)] [] 1 badSig
    (by decide)

end JlsV2Model
